import Mathlib

/-!
Verification of the Web-Curl browser session / tab-lifecycle manager.

Shallow embedding of the state-manipulating core of `src/index.ts`
(class `WebCurlServer`) and, where a feature only exists there, of the
variant source file (`browser_snapshot` html mode).  Tabs are modelled by
numeric identifiers; the pool `this.pages` is a `List Nat` in creation
order.  Event buffers, snapshot trees, batch orchestration and the
screenshot cleanup sweep are embedded as pure functions over explicit
state, faithful to the TypeScript control flow.
-/

namespace WebCurl

/-- Constant `MAX_TABS` from `index.ts`. -/
def MAX_TABS : Nat := 10

/-- The eviction loop of `createNewPage` (`index.ts` lines 324–328):
`while (this.pages.length >= this.MAX_TABS)` the page at position 0 is
closed; its `close` handler splices it out of `this.pages`. -/
def evictWhileFull : List Nat → List Nat
  | [] => []
  | p :: t => if MAX_TABS ≤ (p :: t).length then evictWhileFull t else p :: t

/-- Function `createNewPage` (`index.ts` lines 322–333): run the eviction loop,
open a new page and push it at the end of `this.pages`. -/
def createNewPage (pool : List Nat) (tab : Nat) : List Nat :=
  evictWhileFull pool ++ [tab]

theorem evictWhileFull_length_lt (pool : List Nat) :
    (evictWhileFull pool).length < MAX_TABS := by
  induction pool with
  | nil => simp [evictWhileFull, MAX_TABS]
  | cons p t ih =>
    simp only [evictWhileFull]
    split
    · exact ih
    · omega

theorem evictWhileFull_of_lt (pool : List Nat) (h : pool.length < MAX_TABS) :
    evictWhileFull pool = pool := by
  cases pool with
  | nil => rfl
  | cons p t =>
    simp only [evictWhileFull]
    split
    · exact absurd ‹_› (by omega)
    · rfl

/-- C1. The tab pool is capacity-bounded and evicts FIFO: after any
`createNewPage` the pool holds at most `MAX_TABS` tabs, hence any sequence
of tab creations keeps a within-capacity pool within capacity; and a
creation on a full pool removes exactly the tab at position 0 (the oldest
by creation order), keeping the rest in order and appending the new tab. -/
theorem tabPool_bounded_fifo_eviction :
    ∀ (pool : List Nat) (t : Nat),
      (createNewPage pool t).length ≤ MAX_TABS
    ∧ (pool.length = MAX_TABS → createNewPage pool t = pool.tail ++ [t])
    ∧ ∀ (tabs : List Nat), pool.length ≤ MAX_TABS →
        (tabs.foldl createNewPage pool).length ≤ MAX_TABS := by
  intro pool t
  refine ⟨?_, ?_, ?_⟩
  · have := evictWhileFull_length_lt pool
    simp only [createNewPage, List.length_append, List.length_cons, List.length_nil]
    omega
  · intro hfull
    cases pool with
    | nil => simp [MAX_TABS] at hfull
    | cons p rest =>
      simp only [createNewPage, evictWhileFull, if_pos (le_of_eq hfull.symm)]
      rw [evictWhileFull_of_lt rest (by simp at hfull ⊢; omega)]
      rfl
  · intro tabs
    induction tabs generalizing pool with
    | nil => intro h; simpa using h
    | cons a as ih =>
      intro _
      simp only [List.foldl_cons]
      apply ih
      have := evictWhileFull_length_lt pool
      simp only [createNewPage, List.length_append, List.length_cons, List.length_nil]
      omega

/-- Witness for `tabPool_bounded_fifo_eviction`: a full pool of 10 tabs,
creating tab 99 evicts exactly tab 0. -/
theorem tabPool_bounded_fifo_eviction_witness :
    createNewPage [0, 1, 2, 3, 4, 5, 6, 7, 8, 9] 99
      = [1, 2, 3, 4, 5, 6, 7, 8, 9, 99]
    ∧ ([99, 98, 97].foldl createNewPage [0, 1, 2, 3, 4, 5, 6, 7, 8, 9]).length ≤ MAX_TABS := by
  have h := tabPool_bounded_fifo_eviction [0, 1, 2, 3, 4, 5, 6, 7, 8, 9] 99
  refine ⟨?_, h.2.2 [99, 98, 97] (by decide)⟩
  have := h.2.1 (by decide)
  simpa using this

/-- Function `getPage` (`index.ts` lines 307–320): pick the explicit index or the
active one; an empty pool creates and returns a brand-new tab; otherwise an
index past the end raises the out-of-bounds client error.  The fresh tab id
the model would use for a created page is `freshTab`. -/
def getPage (pool : List Nat) (activePageIndex : Nat) (index : Option Nat)
    (freshTab : Nat) : Except String (Nat × List Nat) :=
  if pool.length = 0 then
    .ok (freshTab, createNewPage pool freshTab)
  else if pool.length ≤ index.getD activePageIndex then
    .error ("Tab index " ++ toString (index.getD activePageIndex)
      ++ " out of bounds (total tabs: " ++ toString pool.length ++ ")")
  else
    .ok (pool.getD (index.getD activePageIndex) 0, pool)

/-- C10. Function `getPage` with any index argument: on an empty pool it creates
and returns a brand-new tab (never the out-of-range error, even for an
explicit index), and the out-of-bounds error is raised only when the pool
is non-empty and the requested index is at least the pool size. -/
theorem getPage_empty_creates_oob_only_nonempty :
    ∀ (pool : List Nat) (active : Nat) (index : Option Nat) (fresh : Nat),
      (pool = [] → getPage pool active index fresh = .ok (fresh, [fresh]))
    ∧ (∀ msg, getPage pool active index fresh = .error msg →
        pool ≠ [] ∧ pool.length ≤ index.getD active) := by
  intro pool active index fresh
  constructor
  · intro h
    subst h
    simp [getPage, createNewPage, evictWhileFull]
  · intro msg h
    unfold getPage at h
    split at h
    · exact absurd h (by simp)
    · split at h
      · constructor
        · intro hnil; subst hnil; simp_all
        · assumption
      · exact absurd h (by simp)

/-- Witness for `getPage_empty_creates_oob_only_nonempty`: an empty pool
with explicit index 5 returns a fresh tab, and a 2-tab pool with index 7
raises the out-of-bounds error with a non-empty pool. -/
theorem getPage_empty_creates_oob_only_nonempty_witness :
    getPage [] 0 (some 5) 42 = .ok (42, [42])
    ∧ ([3, 4] : List Nat) ≠ [] ∧ ([3, 4] : List Nat).length ≤ (some 7 : Option Nat).getD 0 := by
  refine ⟨(getPage_empty_creates_oob_only_nonempty [] 0 (some 5) 42).1 rfl, ?_⟩
  exact (getPage_empty_creates_oob_only_nonempty [3, 4] 0 (some 7) 42).2
    ("Tab index 7 out of bounds (total tabs: 2)") (by rfl)

/-! Section: SnapshotEngine, HTML-slice mode (`browser_snapshot`, html variant). -/

/-- JavaScript `String.prototype.slice` on a character list: negative
indices count from the end, both indices are clamped to `[0, length]`,
and an empty slice results when the end does not exceed the start. -/
def jsSlice (s : List Char) (start stop : Int) : List Char :=
  let len : Int := s.length
  let relStart := if start < 0 then max (len + start) 0 else min start len
  let relStop := if stop < 0 then max (len + stop) 0 else min stop len
  (s.take relStop.toNat).drop relStart.toNat

/-- The JSON document returned by `browser_snapshot` in html mode. -/
structure HtmlSliceResult where
  totalLength : Nat
  startIndex : Int
  endIndex : Int
  remainingCharacters : Int
  content : List Char
  deriving Repr, DecidableEq

/-- Handler `browser_snapshot` in html mode (variant source, lines 1636–1664):
`safeStart = max(0, floor(startIndex))`, `endIndex` defaults to
`safeStart + 20000`, `safeEnd = min(html.length, endIndex)`, content is
`html.slice(safeStart, safeEnd)` and `remainingCharacters =
max(0, html.length - safeEnd)`.  Integral indices stand in for the
JavaScript numbers, so `Math.floor` is the identity. -/
def browserSnapshotHtml (html : List Char) (startIndex : Int)
    (endIndex : Option Int) : HtmlSliceResult :=
  let safeStart : Int := max 0 startIndex
  let defaultEnd : Int := safeStart + 20000
  let safeEnd : Int := min (html.length : Int) (endIndex.getD defaultEnd)
  { totalLength := html.length
    startIndex := safeStart
    endIndex := safeEnd
    remainingCharacters := max 0 ((html.length : Int) - safeEnd)
    content := jsSlice html safeStart safeEnd }

theorem jsSlice_nonneg (s : List Char) (start stop : Int)
    (hs : 0 ≤ start) (he : 0 ≤ stop) (hle : stop ≤ (s.length : Int)) :
    jsSlice s start stop = (s.take stop.toNat).drop start.toNat := by
  simp only [jsSlice]
  rw [if_neg (show ¬ start < 0 by omega), if_neg (show ¬ stop < 0 by omega),
    min_eq_left hle]
  rcases le_or_lt start (s.length : Int) with h | h
  · rw [min_eq_left h]
  · rw [min_eq_right (le_of_lt h)]
    have h1 : (s.take stop.toNat).length ≤ s.length := by
      rw [List.length_take]
      omega
    rw [List.drop_eq_nil_of_le (by omega), List.drop_eq_nil_of_le (by omega)]

/-- C2. HTML-slice snapshot arithmetic: on a document of length `L`
with `0 ≤ startIndex`, an omitted `endIndex` defaults to
`startIndex + 20000`; the effective `endIndex` is the requested one
clamped to `L`; the returned content is the slice
`[startIndex, effective endIndex)`; and `remainingCharacters` is `L`
minus the effective `endIndex`. -/
theorem html_slice_default_clamp_remaining :
    ∀ (html : List Char) (s : Int), 0 ≤ s →
      ((browserSnapshotHtml html s none).endIndex
          = min (html.length : Int) (s + 20000))
    ∧ ∀ (e : Int), 0 ≤ e →
        (browserSnapshotHtml html s (some e)).endIndex
            = min (html.length : Int) e
        ∧ (browserSnapshotHtml html s (some e)).content
            = (html.take (browserSnapshotHtml html s (some e)).endIndex.toNat).drop s.toNat
        ∧ (browserSnapshotHtml html s (some e)).remainingCharacters
            = (html.length : Int) - (browserSnapshotHtml html s (some e)).endIndex
        ∧ (browserSnapshotHtml html s (some e)).totalLength = html.length := by
  intro html s hs
  constructor
  · simp only [browserSnapshotHtml, Option.getD]
    omega
  · intro e he
    have hstart : max 0 s = s := max_eq_right hs
    have hend : min (html.length : Int) e = min (html.length : Int) e := rfl
    refine ⟨?_, ?_, ?_, rfl⟩
    · simp only [browserSnapshotHtml, Option.getD]
    · simp only [browserSnapshotHtml, Option.getD, hstart]
      rw [jsSlice_nonneg html s (min (html.length : Int) e) hs (by omega)
        (min_le_left _ _)]
    · simp only [browserSnapshotHtml, Option.getD]
      omega

/-- Witness for `html_slice_default_clamp_remaining`: the spec's concrete
1000-character document.  `startIndex=0,endIndex=100` returns 100 chars
with `remainingCharacters=900`; `startIndex=900,endIndex=2000` is clamped
to 1000, returns 100 chars with `remainingCharacters=0`; and an omitted
`endIndex` defaults to `0 + 20000`, clamped to 1000. -/
theorem html_slice_default_clamp_remaining_witness :
    ((0 : Int) ≤ 0 ∧ (0 : Int) ≤ 100 ∧ (0 : Int) ≤ 900 ∧ (0 : Int) ≤ 2000)
    ∧ (browserSnapshotHtml (List.replicate 1000 'a') 0 none).endIndex = 1000
    ∧ (browserSnapshotHtml (List.replicate 1000 'a') 0 (some 100)).endIndex = 100
    ∧ (browserSnapshotHtml (List.replicate 1000 'a') 0 (some 100)).content.length = 100
    ∧ (browserSnapshotHtml (List.replicate 1000 'a') 0 (some 100)).remainingCharacters = 900
    ∧ (browserSnapshotHtml (List.replicate 1000 'a') 900 (some 2000)).endIndex = 1000
    ∧ (browserSnapshotHtml (List.replicate 1000 'a') 900 (some 2000)).content.length = 100
    ∧ (browserSnapshotHtml (List.replicate 1000 'a') 900 (some 2000)).remainingCharacters = 0 := by
  have h0 := html_slice_default_clamp_remaining (List.replicate 1000 'a') 0 (by norm_num)
  have h9 := html_slice_default_clamp_remaining (List.replicate 1000 'a') 900 (by norm_num)
  have e0 := h0.2 100 (by norm_num)
  have e9 := h9.2 2000 (by norm_num)
  refine ⟨⟨by norm_num, by norm_num, by norm_num, by norm_num⟩, ?_, ?_, ?_, ?_, ?_, ?_, ?_⟩
  · rw [h0.1]; norm_num
  · rw [e0.1]; norm_num
  · rw [e0.2.1, e0.1]; norm_num; decide
  · rw [e0.2.2.1, e0.1]; norm_num
  · rw [e9.1]; norm_num
  · rw [e9.2.1, e9.1]; norm_num; decide
  · rw [e9.2.2.1, e9.1]; norm_num

/-! Section: EventRecorder, per-tab console / network buffers (`setupPage`). -/

/-- A console entry as recorded by the `page.on` console listener
(`index.ts` lines 345–349). -/
structure ConsoleEntry where
  type : String
  text : String
  timestamp : String
  deriving Repr, DecidableEq

/-- A network entry as recorded by the `page.on` request listener
(`index.ts` lines 351–355). -/
structure NetworkEntry where
  method : String
  url : String
  resourceType : String
  timestamp : String
  deriving Repr, DecidableEq

/-- The push-and-trim-front body shared by both listeners:
`logs.push(entry); if (logs.length > 100) logs.shift();`. -/
def pushEvent {α : Type} (buf : List α) (e : α) : List α :=
  let b := buf ++ [e]
  if 100 < b.length then b.tail else b

/-- Handler `browser_navigate` resetting both buffers of the target tab
(`index.ts` lines 842–843): `this.networkRequests.set(page, []);
this.consoleMessages.set(page, [])`. -/
def navigateResetBuffers {α β : Type} (_console : List α) (_network : List β) :
    List α × List β :=
  ([], [])

theorem pushEvent_spec {α : Type} (buf : List α) (e : α) :
    (buf.length ≤ 100 → (pushEvent buf e).length ≤ 100)
  ∧ (buf.length = 100 → pushEvent buf e = buf.tail ++ [e]) := by
  constructor
  · intro h
    simp only [pushEvent]
    split
    · simp only [List.length_tail, List.length_append, List.length_cons,
        List.length_nil]
      omega
    · simp only [List.length_append, List.length_cons, List.length_nil] at *
      omega
  · intro h
    simp only [pushEvent]
    rw [if_pos (by simp [h])]
    cases buf with
    | nil => simp at h
    | cons a t => simp

/-- C8. Both event channels are bounded at 100 entries with
push-and-trim-front semantics: a push on a buffer of at most 100 entries
leaves at most 100 entries, a push on a full buffer of 100 drops exactly
the oldest (front) entry, and a top-level navigation of the tab resets
both buffers to empty. -/
theorem event_buffers_bounded_reset :
    (∀ (buf : List ConsoleEntry) (e : ConsoleEntry),
        (buf.length ≤ 100 → (pushEvent buf e).length ≤ 100)
      ∧ (buf.length = 100 → pushEvent buf e = buf.tail ++ [e]))
  ∧ (∀ (buf : List NetworkEntry) (e : NetworkEntry),
        (buf.length ≤ 100 → (pushEvent buf e).length ≤ 100)
      ∧ (buf.length = 100 → pushEvent buf e = buf.tail ++ [e]))
  ∧ (∀ (c : List ConsoleEntry) (n : List NetworkEntry),
        navigateResetBuffers c n = ([], [])) :=
  ⟨fun buf e => pushEvent_spec buf e,
   fun buf e => pushEvent_spec buf e,
   fun _ _ => rfl⟩

/-- Witness for `event_buffers_bounded_reset`: a full buffer of 100
identical console entries; the 101st push drops the oldest. -/
theorem event_buffers_bounded_reset_witness :
    (List.replicate 100 (ConsoleEntry.mk "log" "old" "t0")).length = 100
    ∧ pushEvent (List.replicate 100 (ConsoleEntry.mk "log" "old" "t0"))
        (ConsoleEntry.mk "log" "new" "t1")
      = List.replicate 99 (ConsoleEntry.mk "log" "old" "t0")
        ++ [ConsoleEntry.mk "log" "new" "t1"]
    ∧ (pushEvent (List.replicate 100 (ConsoleEntry.mk "log" "old" "t0"))
        (ConsoleEntry.mk "log" "new" "t1")).length ≤ 100 := by
  have h := event_buffers_bounded_reset.1
    (List.replicate 100 (ConsoleEntry.mk "log" "old" "t0"))
    (ConsoleEntry.mk "log" "new" "t1")
  refine ⟨by simp, ?_, h.1 (by simp)⟩
  rw [h.2 (by simp)]
  decide

/-! Section: ScreenshotLifecycle, retention sweep (`cleanupOldFiles`) and
custom-directory tracking (`takeScreenshot`) -/

/-- A directory entry as seen by the sweep: a name and `stats.mtimeMs`. -/
structure FileEntry where
  name : String
  mtimeMs : Int
  deriving Repr, DecidableEq

/-- Value `5 * 24 * 60 * 60 * 1000` — the 5-day retention window of
`cleanupOldFiles` (`index.ts` line 110). -/
def expiryMs : Int := 5 * 24 * 60 * 60 * 1000

/-- Function `cleanupDir` (`index.ts` lines 112–122): every file with
`now - stats.mtimeMs > expiryMs` is unlinked; the result is the list of
files the directory retains. -/
def cleanupDir (now : Int) (files : List FileEntry) : List FileEntry :=
  files.filter (fun f => ! (expiryMs < now - f.mtimeMs))

/-- Function `cleanupOldFiles` (`index.ts` lines 107–132): sweep the default
screenshot directory and every tracked custom directory. -/
def cleanupOldFiles (now : Int) (screenshotDir : List FileEntry)
    (customScreenshotDirs : List (List FileEntry)) :
    List FileEntry × List (List FileEntry) :=
  (cleanupDir now screenshotDir, customScreenshotDirs.map (cleanupDir now))

/-- The tracking step of `takeScreenshot` (`index.ts` lines 1082–1085):
a destination directory other than the default is added to
`customScreenshotDirs` (a set, modelled as a duplicate-free extension). -/
def trackCustomDir (customDirs : List String) (destDir screenshotDir : String) :
    List String :=
  if destDir = screenshotDir then customDirs
  else if destDir ∈ customDirs then customDirs
  else customDirs ++ [destDir]

/-- C9. A cleanup sweep covers the default directory and every tracked
custom directory; in each swept directory every file strictly older than
the 5-day window is deleted and every file within the window is retained;
and `takeScreenshot` tracks every custom destination directory it uses. -/
theorem cleanup_retention_sweep :
    ∀ (now : Int) (defaultDir : List FileEntry)
      (customDirs : List (List FileEntry)),
      ((cleanupOldFiles now defaultDir customDirs).1 = cleanupDir now defaultDir)
    ∧ ((cleanupOldFiles now defaultDir customDirs).2
        = customDirs.map (cleanupDir now))
    ∧ (∀ (dir : List FileEntry) (f : FileEntry), f ∈ dir →
          (expiryMs < now - f.mtimeMs → f ∉ cleanupDir now dir)
        ∧ (now - f.mtimeMs ≤ expiryMs → f ∈ cleanupDir now dir))
    ∧ (∀ (dirs : List String) (dest sdir : String), dest ≠ sdir →
          dest ∈ trackCustomDir dirs dest sdir) := by
  intro now defaultDir customDirs
  refine ⟨rfl, rfl, ?_, ?_⟩
  · intro dir f hf
    constructor
    · intro hold hmem
      rw [cleanupDir, List.mem_filter] at hmem
      have := hmem.2
      simp only [Bool.not_eq_true', decide_eq_false_iff_not] at this
      exact this hold
    · intro hyoung
      rw [cleanupDir, List.mem_filter]
      exact ⟨hf, by simp only [Bool.not_eq_true', decide_eq_false_iff_not]; omega⟩
  · intro dirs dest sdir hne
    simp only [trackCustomDir, if_neg hne]
    split
    · assumption
    · simp

/-- Witness for `cleanup_retention_sweep`: with `now` one millisecond past
the 5-day window, a file of age `expiryMs + 1` is deleted while a file of
age 1 is retained, and a custom directory distinct from the default is
tracked. -/
theorem cleanup_retention_sweep_witness :
    (FileEntry.mk "old.png" 0 ∈ [FileEntry.mk "old.png" 0, FileEntry.mk "new.png" 432000000]
      ∧ expiryMs < 432000001 - (FileEntry.mk "old.png" 0).mtimeMs
      ∧ FileEntry.mk "old.png" 0
          ∉ cleanupDir 432000001 [FileEntry.mk "old.png" 0, FileEntry.mk "new.png" 432000000])
    ∧ (432000001 - (FileEntry.mk "new.png" 432000000).mtimeMs ≤ expiryMs
      ∧ FileEntry.mk "new.png" 432000000
          ∈ cleanupDir 432000001 [FileEntry.mk "old.png" 0, FileEntry.mk "new.png" 432000000])
    ∧ ("shots" ≠ "default-shots" ∧ "shots" ∈ trackCustomDir [] "shots" "default-shots") := by
  have h := cleanup_retention_sweep 432000001
    [FileEntry.mk "old.png" 0, FileEntry.mk "new.png" 432000000] []
  have hold := h.2.2.1 [FileEntry.mk "old.png" 0, FileEntry.mk "new.png" 432000000]
    (FileEntry.mk "old.png" 0) (by simp)
  have hnew := h.2.2.1 [FileEntry.mk "old.png" 0, FileEntry.mk "new.png" 432000000]
    (FileEntry.mk "new.png" 432000000) (by simp)
  refine ⟨⟨by simp, by decide, hold.1 (by decide)⟩,
          ⟨by decide, hnew.2 (by decide)⟩,
          ⟨by decide, h.2.2.2 [] "shots" "default-shots" (by decide)⟩⟩

/-! Section: the tool-dispatch boundary, the per-call `catch` of `setupToolHandlers`. -/

/-- The structured result the transport sees: a text payload plus the
explicit `isError` flag (absent, i.e. `false`, on success). -/
structure ToolResult where
  text : String
  isError : Bool
  deriving Repr, DecidableEq

/-- The per-call try/catch of `setupToolHandlers` (`index.ts` lines
783–1018): a handler is run against the server state; a thrown error is
caught and converted to
`{ content: [{ text: "Error: " + message }], isError: true }`, leaving the
state exactly as the handler left it. -/
def dispatchToolCall {σ : Type} (handler : σ → σ × Except String String)
    (s : σ) : σ × ToolResult :=
  match handler s with
  | (s2, .ok t) => (s2, { text := t, isError := false })
  | (s2, .error m) => (s2, { text := "Error: " ++ m, isError := true })

/-- C7. Every tool-call error raised during handling is caught and
converted into a structured result with an explicit `isError` flag and a
message; the dispatch itself is a total function (no exception crosses the
transport boundary, so a failing call never terminates the server), and
the error conversion leaves the server state (pool, buffers) exactly as
the handler left it. -/
theorem tool_errors_caught_structured :
    ∀ {σ : Type} (handler : σ → σ × Except String String) (s : σ),
      ((dispatchToolCall handler s).1 = (handler s).1)
    ∧ (∀ m, (handler s).2 = .error m →
        (dispatchToolCall handler s).2 = { text := "Error: " ++ m, isError := true })
    ∧ (∀ t, (handler s).2 = .ok t →
        (dispatchToolCall handler s).2 = { text := t, isError := false }) := by
  intro σ handler s
  refine ⟨?_, ?_, ?_⟩
  · rcases hh : handler s with ⟨s2, r⟩
    unfold dispatchToolCall
    rw [hh]
    cases r <;> rfl
  · intro m hm
    rcases hh : handler s with ⟨s2, r⟩
    rw [hh] at hm
    unfold dispatchToolCall
    rw [hh]
    cases r with
    | ok t => simp at hm
    | error e => simp at hm; subst hm; rfl
  · intro t ht
    rcases hh : handler s with ⟨s2, r⟩
    rw [hh] at ht
    unfold dispatchToolCall
    rw [hh]
    cases r with
    | error e => simp at ht
    | ok u => simp at ht; subst ht; rfl

/-- Witness for `tool_errors_caught_structured`: a handler over a pool
state that throws leaves the pool untouched and yields the flagged
structured error; a succeeding handler yields an unflagged result. -/
theorem tool_errors_caught_structured_witness :
    dispatchToolCall (fun s : List Nat => (s, .error "selector not found")) [7, 8]
      = ([7, 8], { text := "Error: selector not found", isError := true })
    ∧ (dispatchToolCall (fun s : List Nat => (s, .ok "Clicked")) [7, 8]).2
      = { text := "Clicked", isError := false } :=
  ⟨rfl, (tool_errors_caught_structured
    (fun s : List Nat => (s, .ok "Clicked")) [7, 8]).2.2 "Clicked" rfl⟩

/-! Section: BatchOrchestrator, `multi_search` and `batch_navigate`. -/

/-- One upstream search hit, as mapped from the Custom Search response. -/
structure SearchItem where
  title : String
  link : String
  snippet : String
  deriving Repr, DecidableEq

/-- One per-query slot of a `multi_search` response. -/
structure QueryResult where
  query : String
  results : List SearchItem
  deriving Repr, DecidableEq

/-- Semantics of `Promise.all` over already-settled outcomes: resolves with the list of
values when every promise fulfills, rejects with the first rejection
otherwise. -/
def promiseAll {ε α : Type} : List (Except ε α) → Except ε (List α)
  | [] => .ok []
  | .error e :: _ => .error e
  | .ok a :: rest => (promiseAll rest).map (a :: ·)

/-- The `multi_search` handler (`index.ts` lines 876–894): one upstream
request per query, aggregated with `Promise.all`; each settled upstream
outcome (the parsed item list, or the fetch error) is given as input. No
per-query catch exists in the source. -/
def multiSearch (outcomes : List (String × Except String (List SearchItem))) :
    Except String (List QueryResult) :=
  promiseAll (outcomes.map (fun qr => qr.2.map (fun items => ⟨qr.1, items⟩)))

/-- C5 counterexample. Two queries where only the second query's
upstream request fails: `multi_search` does not surface the failure in
that query's own slot — `Promise.all` rejects and the whole call yields a
single error (the dispatch catch then converts it to one structured error
result), with no result slot for the succeeding first query. -/
theorem multi_search_failure_counterexample :
    multiSearch [("ok-query", .ok [⟨"t", "l", "s"⟩]), ("bad-query", .error "fetch failed")]
      = .error "fetch failed" := rfl

/-- C5 amended. Tool `multi_search` is all-or-nothing: when every query's
upstream request succeeds the call returns exactly one slot per query, in
order, each slot carrying its query string; when any query's request
fails, the whole aggregate rejects with a failing query's error and the
call produces no per-query slots (the dispatch boundary returns a single
structured error result instead). -/
theorem multi_search_all_or_nothing :
    ∀ (outcomes : List (String × Except String (List SearchItem))),
      ((∀ o ∈ outcomes, ∃ items, o.2 = .ok items) →
        ∃ slots, multiSearch outcomes = .ok slots
          ∧ slots.map QueryResult.query = outcomes.map Prod.fst)
    ∧ ((∃ o ∈ outcomes, ∃ m, o.2 = .error m) →
        ∃ o ∈ outcomes, ∃ m, o.2 = .error m ∧ multiSearch outcomes = .error m) := by
  intro outcomes
  induction outcomes with
  | nil =>
    refine ⟨fun _ => ⟨[], rfl, rfl⟩, ?_⟩
    rintro ⟨o, ho, _⟩
    simp at ho
  | cons hd tl ih =>
    rcases hd with ⟨q, r⟩
    constructor
    · intro hall
      obtain ⟨items, hitems⟩ := hall (q, r) (by simp)
      simp only at hitems
      subst hitems
      obtain ⟨slots, hs, hq⟩ := ih.1 (fun o ho => hall o (by simp [ho]))
      refine ⟨⟨q, items⟩ :: slots, ?_, by simp [hq]⟩
      have hstep : multiSearch ((q, Except.ok items) :: tl)
          = (multiSearch tl).map (⟨q, items⟩ :: ·) := rfl
      rw [hstep, hs]
      rfl
    · rintro ⟨o, ho, m, hm⟩
      rcases List.mem_cons.mp ho with h | h
      · subst h
        simp only at hm
        subst hm
        exact ⟨(q, .error m), by simp, m, rfl, rfl⟩
      · cases r with
        | error e =>
          exact ⟨(q, .error e), by simp, e, rfl, rfl⟩
        | ok items =>
          obtain ⟨o2, ho2, m2, hm2, hrun⟩ := ih.2 ⟨o, h, m, hm⟩
          refine ⟨o2, by simp [ho2], m2, hm2, ?_⟩
          have hstep : multiSearch ((q, Except.ok items) :: tl)
              = (multiSearch tl).map (⟨q, items⟩ :: ·) := rfl
          rw [hstep, hrun]
          rfl

/-- Witness for `multi_search_all_or_nothing`: two succeeding queries give
two slots in order; a failing second query makes the whole call reject
with that query's error. -/
theorem multi_search_all_or_nothing_witness :
    (∃ slots, multiSearch [("a", .ok [⟨"t", "l", "s"⟩]), ("b", .ok [])] = .ok slots
      ∧ slots.map QueryResult.query = ["a", "b"])
    ∧ ∃ o ∈ [(("a", .ok [⟨"t", "l", "s"⟩]) : String × Except String (List SearchItem)),
              ("b", .error "quota exceeded")],
        ∃ m, o.2 = .error m
          ∧ multiSearch [("a", .ok [⟨"t", "l", "s"⟩]), ("b", .error "quota exceeded")]
              = .error m := by
  constructor
  · obtain ⟨slots, h1, h2⟩ :=
      (multi_search_all_or_nothing [("a", .ok [⟨"t", "l", "s"⟩]), ("b", .ok [])]).1
        (by
          intro o ho
          rcases List.mem_cons.mp ho with h | h
          · subst h; exact ⟨_, rfl⟩
          · rw [List.mem_singleton] at h; subst h; exact ⟨_, rfl⟩)
    exact ⟨slots, h1, h2⟩
  · exact (multi_search_all_or_nothing
      [("a", .ok [⟨"t", "l", "s"⟩]), ("b", .error "quota exceeded")]).2
      ⟨("b", .error "quota exceeded"), by simp, "quota exceeded", rfl⟩

/-- One status record of a `batch_navigate` response: on success
`{url, status: "success", tabIndex}`, on failure
`{url, status: "error", error}`. -/
structure NavRecord where
  url : String
  status : String
  tabIndex : Option Nat
  error : Option String
  deriving Repr, DecidableEq

/-- The `batch_navigate` handler (`index.ts` lines 859–875): for each URL
in order, open a new tab via `createNewPage`, navigate it (its settled
outcome is given as input), and push a per-URL record inside the loop's
try/catch; a navigation failure is recorded without aborting the rest.
Returns the final pool and the record list — totality of this function is
the model of "the call itself never throws". -/
def batchNavigate : List Nat → Nat → List (String × Except String Unit) →
    List Nat × List NavRecord
  | pool, _, [] => (pool, [])
  | pool, nextId, (url, outcome) :: rest =>
    let pool2 := createNewPage pool nextId
    let r : NavRecord :=
      match outcome with
      | .ok _ => ⟨url, "success", some (pool2.length - 1), none⟩
      | .error m => ⟨url, "error", none, some m⟩
    let (poolF, recs) := batchNavigate pool2 (nextId + 1) rest
    (poolF, r :: recs)

/-- Per-record correctness relative to the URL's own navigation outcome. -/
def navRecordMatches (job : String × Except String Unit) (r : NavRecord) : Prop :=
  r.url = job.1 ∧
  match job.2 with
  | .ok _ => r.status = "success" ∧ r.error = none ∧ r.tabIndex.isSome = true
  | .error m => r.status = "error" ∧ r.error = some m ∧ r.tabIndex = none

/-- C6. Tool `batch_navigate` yields exactly one status record per URL in
order: a failing URL is recorded as `status="error"` with its message, a
succeeding URL as `status="success"` with the index of its new tab (the
last pool position, which holds the tab just created for it), one URL's
failure never aborts the remaining URLs, and the call always returns a
record list (never throws). -/
theorem batch_navigate_per_url_records :
    ∀ (pool : List Nat) (nextId : Nat) (jobs : List (String × Except String Unit)),
      ((batchNavigate pool nextId jobs).2.length = jobs.length)
    ∧ List.Forall₂ navRecordMatches jobs (batchNavigate pool nextId jobs).2
    ∧ (∀ url rest,
        (batchNavigate pool nextId ((url, Except.ok ()) :: rest)).2.head?
          = some ⟨url, "success", some ((createNewPage pool nextId).length - 1), none⟩)
    ∧ ((createNewPage pool nextId).getLast? = some nextId) := by
  intro pool nextId jobs
  refine ⟨?_, ?_, ?_, ?_⟩
  · induction jobs generalizing pool nextId with
    | nil => rfl
    | cons hd tl ih =>
      rcases hd with ⟨url, outcome⟩
      simp only [batchNavigate]
      rcases hb : batchNavigate (createNewPage pool nextId) (nextId + 1) tl
        with ⟨poolF, recs⟩
      have := ih (createNewPage pool nextId) (nextId + 1)
      rw [hb] at this
      simp_all
  · induction jobs generalizing pool nextId with
    | nil => exact List.Forall₂.nil
    | cons hd tl ih =>
      rcases hd with ⟨url, outcome⟩
      simp only [batchNavigate]
      rcases hb : batchNavigate (createNewPage pool nextId) (nextId + 1) tl
        with ⟨poolF, recs⟩
      have htl := ih (createNewPage pool nextId) (nextId + 1)
      rw [hb] at htl
      refine List.Forall₂.cons ?_ htl
      cases outcome with
      | ok u => exact ⟨rfl, rfl, rfl, rfl⟩
      | error m => exact ⟨rfl, rfl, rfl, rfl⟩
  · intro url rest
    simp only [batchNavigate]
    rcases hb : batchNavigate (createNewPage pool nextId) (nextId + 1) rest
      with ⟨poolF, recs⟩
    rfl
  · simp [createNewPage]

/-- Witness for `batch_navigate_per_url_records` at the spec's concrete
example `batchNavigate(["ok","bad"])`: the "bad" URL gets status=error
with a message, the "ok" URL gets status=success with a tab index, and
both records are present in order. -/
theorem batch_navigate_per_url_records_witness :
    ((batchNavigate [] 0 [("ok", .ok ()), ("bad", .error "net::ERR_NAME_NOT_RESOLVED")]).2.length = 2)
    ∧ List.Forall₂ navRecordMatches
        [("ok", .ok ()), ("bad", .error "net::ERR_NAME_NOT_RESOLVED")]
        (batchNavigate [] 0 [("ok", .ok ()), ("bad", .error "net::ERR_NAME_NOT_RESOLVED")]).2
    ∧ (batchNavigate [] 0 [("ok", .ok ()), ("bad", .error "net::ERR_NAME_NOT_RESOLVED")]).2
        = [⟨"ok", "success", some 0, none⟩,
           ⟨"bad", "error", none, some "net::ERR_NAME_NOT_RESOLVED"⟩] := by
  have h := batch_navigate_per_url_records [] 0
    [("ok", .ok ()), ("bad", .error "net::ERR_NAME_NOT_RESOLVED")]
  exact ⟨h.1, h.2.1, by decide⟩


/-! Section: SnapshotEngine, tree mode (`getAccessibilityTree` / `buildTree`).

The live DOM is modelled as a tree of elements (`DomElement`, with its
sibling lists as the mutually inductive `DomForest`).  The `id` field is
the identity of the live DOM node, used to speak about "the same element"
across snapshots; the remaining fields are the attributes and
computed-style bits `buildTree` reads.  `innerText` is the
browser-computed text of the element, a direct property read in the
source.  The viewport-containment flag and the `url`/`cursor`/`level`
extras of the source node are read by no claim and are omitted. -/

/-- Per-element data read by `buildTree` (`index.ts` lines 370–436). -/
structure ElemData where
  id : Nat
  tag : String
  roleAttr : Option String
  typeAttr : Option String
  ariaLabel : Option (List Char)
  placeholder : Option (List Char)
  alt : Option (List Char)
  innerText : List Char
  displayNone : Bool
  visibilityHidden : Bool
  opacityZero : Bool
  deriving Repr, DecidableEq

mutual
/-- A DOM element with its ordered children. -/
inductive DomElement where
  | node (data : ElemData) (children : DomForest)
  deriving Repr
/-- An ordered list of sibling DOM elements. -/
inductive DomForest where
  | nil
  | cons (head : DomElement) (tail : DomForest)
  deriving Repr
end

/-- The skip test of `buildTree` (`index.ts` line 396): computed style
`display:none`, `visibility:hidden` or `opacity:0` prunes the subtree. -/
def isHidden (d : ElemData) : Bool :=
  d.displayNone || d.visibilityHidden || d.opacityZero

/-- Function `getRole` (`index.ts` lines 373–392): explicit `role`
attribute first, otherwise a fixed tag→role table. -/
def getRole (d : ElemData) : String :=
  match d.roleAttr with
  | some r => r
  | none =>
    if d.tag = "a" then "link"
    else if d.tag = "button" then "button"
    else if d.tag ∈ ["h1", "h2", "h3", "h4", "h5", "h6"] then "heading"
    else if d.tag = "nav" then "navigation"
    else if d.tag = "main" then "main"
    else if d.tag = "article" then "article"
    else if d.tag = "section" then "region"
    else if d.tag = "ul" ∨ d.tag = "ol" then "list"
    else if d.tag = "li" then "listitem"
    else if d.tag = "p" then "paragraph"
    else if d.tag = "img" then "img"
    else if d.tag = "input" then
      (if d.typeAttr = some "checkbox" then "checkbox" else "textbox")
    else "generic"

/-- JavaScript falsy-`||` on strings: an empty string falls through. -/
def jsOr (a b : List Char) : List Char :=
  if a.isEmpty then b else a

/-- Expression `split('\n')[0]`: the characters before the first newline. -/
def firstLine (s : List Char) : List Char :=
  s.takeWhile (· ≠ '\n')

/-- The whitespace class trimmed by `String.prototype.trim` (the ASCII
part, which is all the claims exercise). -/
def isJsSpace (c : Char) : Bool :=
  c = ' ' || c = '\n' || c = '\t' || c = '\r'

/-- Method `trim()`: strip whitespace from both ends. -/
def jsTrim (s : List Char) : List Char :=
  ((s.dropWhile isJsSpace).reverse.dropWhile isJsSpace).reverse

/-- The name expression of `buildTree` (`index.ts` line 417):
`el.innerText?.split('\n')[0].substring(0, 60).trim() ||
el.getAttribute('aria-label') || el.getAttribute('placeholder') ||
el.getAttribute('alt') || ''`.  An absent attribute (`null`) and the empty
string are both falsy, so `Option.getD []` composed with `jsOr` models
both. -/
def elName (d : ElemData) : List Char :=
  jsOr (jsTrim ((firstLine d.innerText).take 60))
    (jsOr (d.ariaLabel.getD [])
      (jsOr (d.placeholder.getD []) (d.alt.getD [])))

/-- The name-derivation order claimed by the spec (aria-label first, then
the trimmed ≤60-char first line of inner text, then placeholder, then
alt), stated for comparison with `elName`. -/
def elNameSpecOrder (d : ElemData) : List Char :=
  jsOr (d.ariaLabel.getD [])
    (jsOr (jsTrim ((firstLine d.innerText).take 60))
      (jsOr (d.placeholder.getD []) (d.alt.getD [])))

/-- Expression `'e' + (count++)` (`index.ts` line 411). -/
def eRef (c : Nat) : String := "e" ++ toString c

/-- A snapshot node: role, the stamped ref, the derived name, children. -/
inductive ANode where
  | mk (role : String) (ref : String) (name : List Char) (children : List ANode)
  deriving Repr

/-- The name of a snapshot node. -/
def ANode.name : ANode → List Char
  | .mk _ _ n _ => n

mutual
/-- Function `buildTree` (`index.ts` lines 394–433), carrying the shared
mutable `count` (starting at 1 for `document.body`).  A hidden element
returns `null` before touching the counter, pruning its subtree; a
processed element takes the current counter value as its ref (stamped on
the DOM via `setAttribute('data-mcp-ref', ref)` — recorded as the
`(id, ref)` stamp list), then its children are built in order.  Result:
the optional node, the stamp list in stamping order, and the counter. -/
def buildTree : DomElement → Nat → Option ANode × List (Nat × String) × Nat
  | .node d cs, count =>
    if isHidden d then (none, [], count)
    else
      let r := buildForest cs (count + 1)
      (some (ANode.mk (getRole d) (eRef count) (elName d) r.1),
       (d.id, eRef count) :: r.2.1, r.2.2)
/-- Mapping `buildTree` over `Array.from(el.children)` and filtering the
`null` results of hidden elements, threading the counter left to right. -/
def buildForest : DomForest → Nat → List ANode × List (Nat × String) × Nat
  | .nil, count => ([], [], count)
  | .cons e es, count =>
    let r1 := buildTree e count
    let r2 := buildForest es r1.2.2
    ((match r1.1 with
      | none => r2.1
      | some n => n :: r2.1),
     r1.2.1 ++ r2.2.1, r2.2.2)
end

mutual
/-- The ids of the elements a snapshot of one element visits (visible,
pre-order, hidden subtrees pruned) — exactly the stamped elements. -/
def visIds : DomElement → List Nat
  | .node d cs => if isHidden d then [] else d.id :: visIdsForest cs
/-- The visited ids of a sibling forest, in order. -/
def visIdsForest : DomForest → List Nat
  | .nil => []
  | .cons e es => visIds e ++ visIdsForest es
end

/-- The ref an element (by live-DOM identity) carries after a snapshot of
`root`: the `data-mcp-ref` attribute value stamped by `buildTree`. -/
def refOf (root : DomElement) (i : Nat) : Option String :=
  ((buildTree root 1).2.1).lookup i

/-- The consecutive ref labels `eRef c, eRef (c+1), …` of length `n`. -/
def eLabels (c n : Nat) : List String :=
  (List.range n).map (fun k => eRef (c + k))

theorem eLabels_succ (c n : Nat) :
    eLabels c (n + 1) = eRef c :: eLabels (c + 1) n := by
  simp only [eLabels, List.range_succ_eq_map, List.map_cons, List.map_map]
  congr 1
  apply List.map_congr_left
  intro k _
  simp only [Function.comp_apply]
  congr 1
  omega

theorem eLabels_add (c m n : Nat) :
    eLabels c (m + n) = eLabels c m ++ eLabels (c + m) n := by
  simp only [eLabels, List.range_add, List.map_append, List.map_map]
  congr 1
  apply List.map_congr_left
  intro k _
  simp only [Function.comp_apply]
  congr 1
  omega

theorem length_eLabels (c n : Nat) : (eLabels c n).length = n := by
  simp [eLabels]

/-- The structural content of the counter-based stamping, jointly for one
element and for a sibling forest: the final count advances by the number
of visited elements, and the stamp list pairs the visible pre-order ids
with the consecutive labels from the start count. -/
theorem buildTree_stamps (el : DomElement) (c : Nat) :
    (buildTree el c).2.2 = c + (visIds el).length
  ∧ (buildTree el c).2.1 = (visIds el).zip (eLabels c (visIds el).length) := by
  refine buildTree.induct
    (fun el c => (buildTree el c).2.2 = c + (visIds el).length
      ∧ (buildTree el c).2.1 = (visIds el).zip (eLabels c (visIds el).length))
    (fun es c => (buildForest es c).2.2 = c + (visIdsForest es).length
      ∧ (buildForest es c).2.1
          = (visIdsForest es).zip (eLabels c (visIdsForest es).length))
    ?_ ?_ ?_ ?_ el c
  · intro d cs count hhid
    simp [buildTree, visIds, hhid, eLabels]
  · intro d cs count hhid ih
    simp only [Bool.not_eq_true] at hhid
    constructor
    · simp only [buildTree, hhid, Bool.false_eq_true, if_false, visIds,
        List.length_cons]
      omega
    · simp only [buildTree, hhid, Bool.false_eq_true, if_false, visIds,
        List.length_cons]
      rw [eLabels_succ, List.zip_cons_cons, ih.2]
  · intro count
    simp [buildForest, visIdsForest, eLabels]
  · intro e es count r1 ih1 ih2
    constructor
    · simp only [buildForest, visIdsForest, List.length_append]
      rw [ih2.1, ih1.1]
      omega
    · simp only [buildForest, visIdsForest, List.length_append]
      rw [eLabels_add, List.zip_append (by rw [length_eLabels]), ih1.2, ih2.2,
        ih1.1]

theorem jsOr_nil (b : List Char) : jsOr [] b = b := rfl

theorem jsOr_of_ne (a b : List Char) (h : a ≠ []) : jsOr a b = a := by
  simp [jsOr, h]

/-- Element `document.body` of the sample DOMs. -/
def bodyData : ElemData :=
  { id := 0, tag := "body", roleAttr := none, typeAttr := none,
    ariaLabel := none, placeholder := none, alt := none,
    innerText := [], displayNone := false, visibilityHidden := false,
    opacityZero := false }

/-- A visible button, the element tracked across snapshots (id 5). -/
def submitData : ElemData :=
  { id := 5, tag := "button", roleAttr := none, typeAttr := none,
    ariaLabel := none, placeholder := none, alt := none,
    innerText := ['S'], displayNone := false, visibilityHidden := false,
    opacityZero := false }

/-- A banner element (id 7) the page script inserts before the button. -/
def bannerData : ElemData :=
  { id := 7, tag := "div", roleAttr := none, typeAttr := none,
    ariaLabel := none, placeholder := none, alt := none,
    innerText := ['N'], displayNone := false, visibilityHidden := false,
    opacityZero := false }

/-- The same button with its text changed (same live element, id 5). -/
def submitData2 : ElemData :=
  { submitData with innerText := ['S', 'e', 'n', 't'] }

/-- The page before the mutation: `body > button`. -/
def domBefore : DomElement :=
  .node bodyData (.cons (.node submitData .nil) .nil)

/-- The page after a script inserted a banner before the button (no
navigation happened): `body > div + button`. -/
def domAfter : DomElement :=
  .node bodyData (.cons (.node bannerData .nil) (.cons (.node submitData .nil) .nil))

/-- The page after only a text change to the button (no navigation,
visible structure unchanged). -/
def domRetext : DomElement :=
  .node bodyData (.cons (.node submitData2 .nil) .nil)

/-- C3 counterexample. The same live element (id 5), visible in two
snapshots taken within one navigation, receives ref `e2` in the first
snapshot but `e3` in the second after the page inserted a visible element
before it: `buildTree` restarts its counter on every snapshot and
overwrites the stamped attribute instead of reusing it, so refs are not
stable across snapshots within one navigation. -/
theorem snapshot_ref_shift_counterexample :
    refOf domBefore 5 = some "e2"
    ∧ refOf domAfter 5 = some "e3"
    ∧ (some "e2" : Option String) ≠ some "e3" := by
  refine ⟨by decide, by decide, by decide⟩

/-- C3 amended. Refs are recomputed by a fresh pre-order count on every
snapshot, not read back from the stamped attribute: the stamp list of a
snapshot is exactly the visible pre-order element ids paired with the
consecutive labels `e1, e2, …`; consequently a repeated snapshot assigns
the same element the same ref precisely when the visible pre-order
structure is unchanged (in particular whenever the DOM did not change
between the snapshots), while a structural mutation may reassign refs even
within one navigation. -/
theorem snapshot_ref_recount_deterministic :
    ∀ (d1 d2 : DomElement) (i : Nat),
      ((buildTree d1 1).2.1
        = (visIds d1).zip (eLabels 1 (visIds d1).length))
    ∧ (visIds d1 = visIds d2 → refOf d1 i = refOf d2 i) := by
  intro d1 d2 i
  refine ⟨(buildTree_stamps d1 1).2, ?_⟩
  intro h
  unfold refOf
  rw [(buildTree_stamps d1 1).2, (buildTree_stamps d2 1).2, h]

/-- Witness for `snapshot_ref_recount_deterministic`: a repeated snapshot
after a pure text change (same visible structure) gives the button (id 5)
the same ref. -/
theorem snapshot_ref_recount_deterministic_witness :
    visIds domBefore = visIds domRetext
    ∧ refOf domBefore 5 = refOf domRetext 5 := by
  have hv : visIds domBefore = visIds domRetext := by decide
  exact ⟨hv, (snapshot_ref_recount_deterministic domBefore domRetext 5).2 hv⟩

/-- A visible button carrying both an `aria-label` and inner text. -/
def ariaVsTextData : ElemData :=
  { id := 1, tag := "button", roleAttr := none, typeAttr := none,
    ariaLabel := some ['A'], placeholder := none, alt := none,
    innerText := ['B'], displayNone := false, visibilityHidden := false,
    opacityZero := false }

/-- C4 counterexample. An element with `aria-label` "A" and inner text
"B": the snapshot names it "B" (the inner-text expression is the first
operand of the `||` chain in `buildTree`), whereas the claimed
aria-label-first priority would name it "A". -/
theorem snapshot_name_priority_counterexample :
    ((buildTree (DomElement.node ariaVsTextData .nil) 1).1.map ANode.name)
      = some ['B']
    ∧ elNameSpecOrder ariaVsTextData = ['A']
    ∧ (some ['B'] : Option (List Char)) ≠ some ['A'] := by
  refine ⟨by decide, by decide, by decide⟩

/-- C4 amended. The short name of a snapshotted element is derived in this
priority order: the trimmed first line of its inner text truncated to 60
characters first; if that is empty, the aria-label; then the placeholder;
then the alt text — and the node `buildTree` emits for a visible element
carries exactly this name. -/
theorem snapshot_name_innerText_first :
    ∀ (d : ElemData) (cs : DomForest) (c : Nat),
      (isHidden d = false →
        ((buildTree (DomElement.node d cs) c).1.map ANode.name)
          = some (elName d))
    ∧ (jsTrim ((firstLine d.innerText).take 60) ≠ [] →
        elName d = jsTrim ((firstLine d.innerText).take 60))
    ∧ (jsTrim ((firstLine d.innerText).take 60) = [] →
        d.ariaLabel.getD [] ≠ [] →
        elName d = d.ariaLabel.getD [])
    ∧ (jsTrim ((firstLine d.innerText).take 60) = [] →
        d.ariaLabel.getD [] = [] → d.placeholder.getD [] ≠ [] →
        elName d = d.placeholder.getD [])
    ∧ (jsTrim ((firstLine d.innerText).take 60) = [] →
        d.ariaLabel.getD [] = [] → d.placeholder.getD [] = [] →
        elName d = d.alt.getD []) := by
  intro d cs c
  refine ⟨?_, ?_, ?_, ?_, ?_⟩
  · intro hhid
    simp [buildTree, hhid, ANode.name]
  · intro ht
    simp only [elName]
    rw [jsOr_of_ne _ _ ht]
  · intro ht ha
    simp only [elName]
    rw [ht, jsOr_nil, jsOr_of_ne _ _ ha]
  · intro ht ha hp
    simp only [elName]
    rw [ht, jsOr_nil, ha, jsOr_nil, jsOr_of_ne _ _ hp]
  · intro ht ha hp
    simp only [elName]
    rw [ht, jsOr_nil, ha, jsOr_nil, hp, jsOr_nil]

/-- A visible element with whitespace-only inner text and an aria-label:
the inner-text operand trims to empty, so the name falls back to the
aria-label. -/
def spacerData : ElemData :=
  { id := 2, tag := "div", roleAttr := none, typeAttr := none,
    ariaLabel := some ['L'], placeholder := none, alt := none,
    innerText := [' ', ' '], displayNone := false, visibilityHidden := false,
    opacityZero := false }

/-- Witness for `snapshot_name_innerText_first`: the whitespace-text
element is named by its aria-label, and its snapshot node carries that
name. -/
theorem snapshot_name_innerText_first_witness :
    isHidden spacerData = false
    ∧ jsTrim ((firstLine spacerData.innerText).take 60) = []
    ∧ ((buildTree (DomElement.node spacerData .nil) 1).1.map ANode.name)
        = some (elName spacerData)
    ∧ elName spacerData = ['L'] := by
  have h := snapshot_name_innerText_first spacerData .nil 1
  refine ⟨rfl, by decide, h.1 rfl, ?_⟩
  rw [h.2.2.1 (by decide) (by decide)]
  rfl

end WebCurl
